import Mathlib

/-!
Shallow embedding of the loan-eligibility core of the Loandocs-analyzer
repository (src/loan_calculator.py and src/query_generator.py), together
with theorems settling the specification claims about it.

Conventions of the embedding:
* Python floats are modelled as exact rationals (`ℚ`); `round(x, 2)` is
  modelled by `round2` (round to 2 decimal places at the output boundary).
* Python dict lookups `d.get(k, default)` on possibly-missing fields are
  modelled as `Option` fields read with `Option.getD`.
* A Python `ZeroDivisionError` fault is modelled by returning `none`:
  functions that contain an unguarded division return `Option _`, with
  `none` exactly at the inputs where the source raises.
-/

set_option maxRecDepth 2000

namespace LoanDocs

/-- Configuration state of `LoanEligibilityCalculator` (loan_calculator.py,
`__init__`).  Ages and tenures are integral years; ratios are rationals. -/
structure Config where
  FOIR_SALARIED : ℚ
  MAX_AGE_SALARIED : ℤ
  MAX_TENURE_YEARS : ℤ
  MIN_INCOME_THRESHOLD : ℚ
  HIGH_FOIR_THRESHOLD : ℚ
  FOIR_SELF_EMPLOYED_MAX : ℚ
  MAX_AGE_SELF_EMPLOYED : ℤ
deriving DecidableEq, Repr

/-- The per-field normalization used in `__init__` and `update_config`:
`x / 100 if x > 1 else x`. -/
def normalizeRatio (x : ℚ) : ℚ :=
  if 1 < x then x / 100 else x

/-- The `config` dict accepted by `__init__` / `update_config`: each key may
be absent (`none`). -/
structure ConfigInput where
  foir_salaried : Option ℚ := none
  max_age_salaried : Option ℤ := none
  max_tenure_years : Option ℤ := none
  min_income_threshold : Option ℚ := none
  high_foir_threshold : Option ℚ := none
  foir_self_employed : Option ℚ := none
  max_age_self_employed : Option ℤ := none
deriving DecidableEq, Repr

/-- `LoanEligibilityCalculator.__init__` (loan_calculator.py lines 5-22):
defaults applied via `config.get`, ratio fields normalized. -/
def initCalc (cfg : ConfigInput) : Config :=
  { FOIR_SALARIED := normalizeRatio (cfg.foir_salaried.getD 60)
    MAX_AGE_SALARIED := cfg.max_age_salaried.getD 60
    MAX_TENURE_YEARS := cfg.max_tenure_years.getD 30
    MIN_INCOME_THRESHOLD := cfg.min_income_threshold.getD 25000
    HIGH_FOIR_THRESHOLD := normalizeRatio (cfg.high_foir_threshold.getD 40)
    FOIR_SELF_EMPLOYED_MAX := normalizeRatio (cfg.foir_self_employed.getD 90)
    MAX_AGE_SELF_EMPLOYED := cfg.max_age_self_employed.getD 70 }

/-- `update_config` (loan_calculator.py lines 24-37): each key, when present,
overwrites its field; ratio fields are normalized on the way in. -/
def update_config (c : Config) (cfg : ConfigInput) : Config :=
  { FOIR_SALARIED :=
      match cfg.foir_salaried with
      | some x => normalizeRatio x
      | none => c.FOIR_SALARIED
    MAX_AGE_SALARIED :=
      match cfg.max_age_salaried with
      | some x => x
      | none => c.MAX_AGE_SALARIED
    MAX_TENURE_YEARS :=
      match cfg.max_tenure_years with
      | some x => x
      | none => c.MAX_TENURE_YEARS
    MIN_INCOME_THRESHOLD :=
      match cfg.min_income_threshold with
      | some x => x
      | none => c.MIN_INCOME_THRESHOLD
    HIGH_FOIR_THRESHOLD :=
      match cfg.high_foir_threshold with
      | some x => normalizeRatio x
      | none => c.HIGH_FOIR_THRESHOLD
    FOIR_SELF_EMPLOYED_MAX :=
      match cfg.foir_self_employed with
      | some x => normalizeRatio x
      | none => c.FOIR_SELF_EMPLOYED_MAX
    MAX_AGE_SELF_EMPLOYED :=
      match cfg.max_age_self_employed with
      | some x => x
      | none => c.MAX_AGE_SELF_EMPLOYED }

/-- The calculator constructed with an empty config dict (all defaults). -/
def defaultConfig : Config := initCalc {}

/-- The `earnings` sub-dict of one salary slip: ten fixed components and five
variable components, each possibly absent (defaulting to 0 when read). -/
structure Earnings where
  basic : Option ℚ := none
  hra : Option ℚ := none
  conveyance_allowance : Option ℚ := none
  travel_allowance : Option ℚ := none
  medical_allowance : Option ℚ := none
  special_allowance : Option ℚ := none
  lta : Option ℚ := none
  city_compensatory_allowance : Option ℚ := none
  education_allowance : Option ℚ := none
  other_allowances : Option ℚ := none
  incentive : Option ℚ := none
  overtime : Option ℚ := none
  bonus : Option ℚ := none
  commission : Option ℚ := none
  arrears : Option ℚ := none
deriving DecidableEq, Repr

/-- `categorize_salary_components` (loan_calculator.py lines 75-100): splits
one slip's earnings into the fixed and the variable component values (the
values of the two dicts the source builds, in insertion order); every absent
component reads as 0.  Only the sums of the dict values are consumed. -/
def categorize_salary_components (slip : Earnings) : List ℚ × List ℚ :=
  ([slip.basic.getD 0, slip.hra.getD 0, slip.conveyance_allowance.getD 0,
    slip.travel_allowance.getD 0, slip.medical_allowance.getD 0,
    slip.special_allowance.getD 0, slip.lta.getD 0,
    slip.city_compensatory_allowance.getD 0, slip.education_allowance.getD 0,
    slip.other_allowances.getD 0],
   [slip.incentive.getD 0, slip.overtime.getD 0, slip.bonus.getD 0,
    slip.commission.getD 0, slip.arrears.getD 0])

/-- The triple returned by `calculate_gross_monthly_income` (the detailed
per-component breakdown dict, which no claim consumes, is omitted). -/
structure IncomeResult where
  gross_monthly : ℚ
  avg_fixed : ℚ
  avg_variable_considerable : ℚ
deriving DecidableEq, Repr

/-- `calculate_gross_monthly_income` (loan_calculator.py lines 102-142):
average of fixed sums over the record count; variable sums divided by the
fixed constant 6, then halved; empty input returns all zeros. -/
def calculate_gross_monthly_income (salary_slips : List Earnings) : IncomeResult :=
  if salary_slips = [] then ⟨0, 0, 0⟩
  else
    let count : ℚ := salary_slips.length
    let total_fixed := (salary_slips.map (fun s => ((categorize_salary_components s).1).sum)).sum
    let total_variable := (salary_slips.map (fun s => ((categorize_salary_components s).2).sum)).sum
    let avg_fixed := total_fixed / count
    let avg_variable_considerable := (total_variable / 6) * (1 / 2)
    ⟨avg_fixed + avg_variable_considerable, avg_fixed, avg_variable_considerable⟩

/-- One EMI/obligation record as consumed by the calculator; every field may
be absent.  Indices used for exclusion refer to list positions. -/
structure EmiRecord where
  lender : Option String := none
  emi_amount : Option ℚ := none
  loan_type : Option String := none
  has_loan_document : Option Bool := none
deriving DecidableEq, Repr

/-- One entry of the `emi_details` list built by
`calculate_total_obligations`. -/
structure EmiDetail where
  lender : String
  amount : ℚ
  type : String
  excluded : Bool
  has_loan_document : Bool
deriving DecidableEq, Repr

/-- The enumerated loop of `calculate_total_obligations` in structurally
recursive form: `i` is the index of the head record.  Exclusion indices are
integers so that stale (negative or too large) entries can be represented;
`i in excluded_emis` is list membership, exactly as in the source. -/
def totObAux (excluded_emis : List ℤ) : ℕ → List EmiRecord → ℚ × List EmiDetail
  | _, [] => (0, [])
  | i, emi :: rest =>
    let amount := emi.emi_amount.getD 0
    let is_excluded : Bool := decide ((i : ℤ) ∈ excluded_emis)
    let r := totObAux excluded_emis (i + 1) rest
    ((if is_excluded then 0 else amount) + r.1,
     { lender := emi.lender.getD "Unknown"
       amount := amount
       type := emi.loan_type.getD "Unknown"
       excluded := is_excluded
       has_loan_document := emi.has_loan_document.getD false } :: r.2)

/-- `calculate_total_obligations` (loan_calculator.py lines 144-167): sums
non-excluded EMI amounts and reports every record in the detail list. -/
def calculate_total_obligations (emis_list : List EmiRecord)
    (excluded_emis : List ℤ) : ℚ × List EmiDetail :=
  totObAux excluded_emis 0 emis_list

/-- `calculate_foir` (loan_calculator.py lines 169-173): guarded against a
zero income. -/
def calculate_foir (total_obligations gross_income : ℚ) : ℚ :=
  if gross_income = 0 then 0 else total_obligations / gross_income * 100

/-- `calculate_maximum_emi` (loan_calculator.py lines 175-179). -/
def calculate_maximum_emi (c : Config) (gross_income existing_obligations : ℚ) : ℚ :=
  max 0 (gross_income * c.FOIR_SALARIED - existing_obligations)

/-- `calculate_loan_amount_from_emi` (loan_calculator.py lines 181-194).
The tenure is in months and may be negative (it is `12 *` an unclamped
requested tenure).  The source raises `ZeroDivisionError` when the base
`1 + monthly_rate` is zero and the exponent is negative (0.0 to a negative
power); that fault is modelled as `none`.  The explicit zero-denominator
guard of the source returns 0. -/
def calculate_loan_amount_from_emi (emi interest_rate : ℚ)
    (tenure_months : ℤ) : Option ℚ :=
  if interest_rate = 0 then some (emi * tenure_months)
  else
    let monthly_rate := interest_rate / (12 * 100)
    if 1 + monthly_rate = 0 ∧ tenure_months < 0 then none
    else
      let denominator := monthly_rate * (1 + monthly_rate) ^ tenure_months
      let numerator := (1 + monthly_rate) ^ tenure_months - 1
      if denominator = 0 then some 0
      else some (emi * (numerator / denominator))

/-- Rounding of a monetary/percentage value to 2 decimal places at the output
boundary, modelling `round(x, 2)`. -/
def round2 (x : ℚ) : ℚ :=
  ((round (x * 100) : ℤ) : ℚ) / 100

/-- `calculate_remaining_service_years` (loan_calculator.py lines 60-66) for
a known (non-`None`) age. -/
def calculate_remaining_service_years (current_age max_age : ℤ) : ℤ :=
  max 0 (max_age - current_age)

/-- `calculate_auto_tenure` (loan_calculator.py lines 68-73) for a known
age. -/
def calculate_auto_tenure (c : Config) (current_age : ℤ) : ℤ :=
  min c.MAX_TENURE_YEARS (calculate_remaining_service_years current_age c.MAX_AGE_SALARIED)

/-- The `max_tenure` computed inside `calculate_eligibility`
(loan_calculator.py lines 221-224); identical to `calculate_auto_tenure`. -/
def maxTenureAllowed (c : Config) (age : ℤ) : ℤ :=
  min c.MAX_TENURE_YEARS (calculate_remaining_service_years age c.MAX_AGE_SALARIED)

/-- The tenure in force after the defaulting and clamping steps of
`calculate_eligibility` (loan_calculator.py lines 227-237): a missing request
defaults to `max_tenure`; a request above `max_tenure` is clamped to it. -/
def tenureUsed (c : Config) (age : ℤ) (requested_tenure_years : Option ℤ) : ℤ :=
  let rt0 := requested_tenure_years.getD (maxTenureAllowed c age)
  if maxTenureAllowed c age < rt0 then maxTenureAllowed c age else rt0

/-- Issue tags standing for the f-string issue messages of
`calculate_eligibility`.  The message texts matter downstream only through
the substring tests of the query generator; see `issueMentionsFOIR` and
`issueMentionsAge`. -/
inductive IssueTag where
  | ageExceedsMax
  | tenureExceedsMax
  | foirExceedsMax
deriving DecidableEq, Repr

/-- Warning tags standing for the warning messages of
`calculate_eligibility`. -/
inductive WarnTag where
  | conditionalApproval
  | lowIncome
  | highExistingObligations
deriving DecidableEq, Repr

/-- The result dict of `calculate_eligibility`: the `calculations` sub-dict
is flattened into fields; monetary/percentage entries are stored rounded,
exactly where the source rounds. -/
structure EligResult where
  eligible : Bool
  issues : List IssueTag
  warnings : List WarnTag
  current_age : ℤ
  remaining_service_years : ℤ
  max_tenure_allowed : ℤ
  approved_tenure_years : ℤ
  gross_monthly_income : ℚ
  fixed_income : ℚ
  variable_income_considered : ℚ
  total_existing_obligations : ℚ
  emi_details : List EmiDetail
  current_foir_percent : ℚ
  max_emi_allowed : ℚ
  max_loan_by_income : ℚ
  emi_for_requested_loan : ℚ
  foir_with_requested_loan : ℚ
  approved_loan_amount : Option ℚ
  recommended_loan_amount : Option ℚ
deriving DecidableEq, Repr

/-- The gross monthly income as consumed by `calculate_eligibility`. -/
def grossIncomeOf (salary_slips : List Earnings) : ℚ :=
  (calculate_gross_monthly_income salary_slips).gross_monthly

/-- The summed obligations as consumed by `calculate_eligibility`. -/
def totalObligationsOf (emis_list : List EmiRecord) (excluded_emis : List ℤ) : ℚ :=
  (calculate_total_obligations emis_list excluded_emis).1

/-- The `max_loan_by_income` step of `calculate_eligibility`
(loan_calculator.py lines 252-256): the maximum-EMI headroom converted to a
principal over `tenure_months = tenureUsed * 12`. -/
def maxLoanByIncomeStep (c : Config) (age : ℤ) (salary_slips : List Earnings)
    (emis_list : List EmiRecord) (requested_tenure_years : Option ℤ)
    (interest_rate : ℚ) (excluded_emis : List ℤ) : Option ℚ :=
  calculate_loan_amount_from_emi
    (calculate_maximum_emi c (grossIncomeOf salary_slips)
      (totalObligationsOf emis_list excluded_emis))
    interest_rate (tenureUsed c age requested_tenure_years * 12)

/-- The `emi_for_requested` computation of `calculate_eligibility`
(loan_calculator.py lines 259-265).  Neither branch guards its denominator:
with a positive rate the source divides by `(1+r)^n - 1`, with a
non-positive rate by `tenure_months`; both raise `ZeroDivisionError`
(modelled as `none`) when the divisor is zero, which happens exactly when
the tenure in months is 0. -/
def emiForRequestedStep (requested_loan_amount interest_rate : ℚ)
    (tenure_months : ℤ) : Option ℚ :=
  if 0 < interest_rate then
    let monthly_rate := interest_rate / (12 * 100)
    if (1 + monthly_rate) ^ tenure_months - 1 = 0 then none
    else some (requested_loan_amount * monthly_rate * (1 + monthly_rate) ^ tenure_months /
      ((1 + monthly_rate) ^ tenure_months - 1))
  else
    if (tenure_months : ℚ) = 0 then none
    else some (requested_loan_amount / (tenure_months : ℚ))

/-- The result record assembled by `calculate_eligibility` once the two
fallible division steps have produced `max_loan_by_income` and
`emi_for_requested` (loan_calculator.py lines 204-292, faults excluded).
The single if/elif verdict of lines 273-284 is written once per output
field. -/
def eligVerdict (c : Config) (age : ℤ) (salary_slips : List Earnings)
    (emis_list : List EmiRecord) (requested_loan_amount : ℚ)
    (requested_tenure_years : Option ℤ) (excluded_emis : List ℤ)
    (max_loan_by_income emi_for_requested : ℚ) : EligResult :=
  let ageIssues : List IssueTag :=
    if c.MAX_AGE_SALARIED ≤ age then [IssueTag.ageExceedsMax] else []
  let remaining_years := calculate_remaining_service_years age c.MAX_AGE_SALARIED
  let max_tenure := maxTenureAllowed c age
  let rt0 := requested_tenure_years.getD max_tenure
  let tenureIssues : List IssueTag :=
    if max_tenure < rt0 then [IssueTag.tenureExceedsMax] else []
  let rt := tenureUsed c age requested_tenure_years
  let inc := calculate_gross_monthly_income salary_slips
  let details := (calculate_total_obligations emis_list excluded_emis).2
  let total_obligations := totalObligationsOf emis_list excluded_emis
  let gross_income := grossIncomeOf salary_slips
  let current_foir := calculate_foir total_obligations gross_income
  let max_emi := calculate_maximum_emi c gross_income total_obligations
  let foir_with_loan := calculate_foir (total_obligations + emi_for_requested) gross_income
  { eligible :=
      if foir_with_loan ≤ c.FOIR_SALARIED * 100 then
        (if age < c.MAX_AGE_SALARIED ∧ rt ≤ max_tenure then true else false)
      else false
    issues := ageIssues ++ tenureIssues ++
      (if foir_with_loan ≤ c.FOIR_SALARIED * 100 then [] else [IssueTag.foirExceedsMax])
    warnings :=
      (if foir_with_loan ≤ c.FOIR_SALARIED * 100 then
        (if age < c.MAX_AGE_SALARIED ∧ rt ≤ max_tenure then []
         else [WarnTag.conditionalApproval])
       else []) ++
      (if gross_income < c.MIN_INCOME_THRESHOLD then [WarnTag.lowIncome] else []) ++
      (if c.HIGH_FOIR_THRESHOLD * 100 < current_foir then
        [WarnTag.highExistingObligations] else [])
    current_age := age
    remaining_service_years := remaining_years
    max_tenure_allowed := max_tenure
    approved_tenure_years := rt
    gross_monthly_income := round2 gross_income
    fixed_income := round2 inc.avg_fixed
    variable_income_considered := round2 inc.avg_variable_considerable
    total_existing_obligations := round2 total_obligations
    emi_details := details
    current_foir_percent := round2 current_foir
    max_emi_allowed := round2 max_emi
    max_loan_by_income := round2 max_loan_by_income
    emi_for_requested_loan := round2 emi_for_requested
    foir_with_requested_loan := round2 foir_with_loan
    approved_loan_amount :=
      if foir_with_loan ≤ c.FOIR_SALARIED * 100 then
        (if age < c.MAX_AGE_SALARIED ∧ rt ≤ max_tenure then
          some requested_loan_amount
         else some (min requested_loan_amount max_loan_by_income))
      else none
    recommended_loan_amount :=
      if foir_with_loan ≤ c.FOIR_SALARIED * 100 then none
      else some (round2 max_loan_by_income) }

/-- `calculate_eligibility` (loan_calculator.py lines 196-292) for an
applicant of known age (the date-of-birth parsing of lines 211-214, which no
claim concerns, is performed by the caller; `age` is the value in force from
line 216 on).  Runs the two fallible division steps and assembles the
verdict; `none` is a propagated `ZeroDivisionError`. -/
def calculate_eligibility (c : Config) (age : ℤ) (salary_slips : List Earnings)
    (emis_list : List EmiRecord) (requested_loan_amount : ℚ)
    (requested_tenure_years : Option ℤ) (interest_rate : ℚ)
    (excluded_emis : List ℤ) : Option EligResult :=
  match maxLoanByIncomeStep c age salary_slips emis_list requested_tenure_years
      interest_rate excluded_emis with
  | none => none
  | some max_loan_by_income =>
    match emiForRequestedStep requested_loan_amount interest_rate
        (tenureUsed c age requested_tenure_years * 12) with
    | none => none
    | some emi_for_requested =>
      some (eligVerdict c age salary_slips emis_list requested_loan_amount
        requested_tenure_years excluded_emis max_loan_by_income emi_for_requested)

/-! ### Query generator (src/query_generator.py) -/

/-- Query priorities. -/
inductive Priority where
  | Critical
  | High
  | Medium
  | Low
deriving DecidableEq, Repr

/-- The priority ranks of the final sort (`priority_order` dict,
query_generator.py line 184). -/
def priorityRank : Priority → ℕ
  | .Critical => 0
  | .High => 1
  | .Medium => 2
  | .Low => 3

/-- Does the character list start with the pattern? -/
def charsStartWith : List Char → List Char → Bool
  | _, [] => true
  | [], _ :: _ => false
  | a :: as, b :: bs => a == b && charsStartWith as bs

/-- Does the character list contain the pattern as a contiguous run? -/
def charsContain (pat : List Char) : List Char → Bool
  | [] => pat.isEmpty
  | c :: rest => charsStartWith (c :: rest) pat || charsContain pat rest

/-- Python's `pat in s` substring test. -/
def strContains (s pat : String) : Bool :=
  charsContain pat.toList s.toList

/-- Python's `str.upper()`. -/
def strUpper (s : String) : String :=
  String.mk (s.toList.map Char.toUpper)

/-- Python's `str.title()`: a letter is uppercased when the previous
character is not a letter and lowercased otherwise. -/
def titleAux : Bool → List Char → List Char
  | _, [] => []
  | prevAlpha, c :: rest =>
    (if c.isAlpha then (if prevAlpha then c.toLower else c.toUpper) else c) ::
      titleAux c.isAlpha rest

/-- Python's `str.title()` on a whole string. -/
def titleCase (s : String) : String :=
  String.mk (titleAux false s.toList)

/-- Python's `d.get(k) or 'Unknown'`: both a missing key and an empty (falsy)
string collapse to `"Unknown"`. -/
def orUnknown (s : Option String) : String :=
  match s with
  | none => "Unknown"
  | some t => if t = "" then "Unknown" else t

/-- The query texts produced by `generate_queries`; each f-string becomes a
constructor carrying the interpolated data. -/
inductive QueryText where
  | salarySlipDoc (doc : String)
  | form16Doc
  | bankStatementDoc
  | genericDoc (docUpper : String)
  | appointmentLetter
  | resumeRequired
  | employerLetter
  | loanOutstandingLetter (loan_type_display lender : String) (amount : ℚ)
  | creditCardStatement
  | foirNotAsPerNorms (foir : ℚ)
  | loanTermNotAsPerNorms
  | stretchedRatios (foir : ℚ)
  | otherIncomeProof (gross : ℚ)
  | formDetailsIncomplete (field : String)
  | propertyCostBreakup
  | referenceDetails
  | bankBalancesLow (avg : ℚ)
  | salarySlipShortage (months_needed : ℕ)
deriving DecidableEq, Repr

/-- One generated query: `(category, text, priority)`. -/
structure Query where
  category : String
  text : QueryText
  priority : Priority
deriving DecidableEq, Repr

/-- Recognizer for the per-obligation `LOAN OUTSTANDING LETTER` query. -/
def QueryText.isOblLetter : QueryText → Bool
  | .loanOutstandingLetter _ _ _ => true
  | _ => false

/-- The fields of `analysis_results` read by `generate_queries`, with the
`get` defaults of the source. -/
structure AnalysisSummary where
  job_since_years : ℚ := 0
  emis_found : List EmiRecord := []
  average_bank_balance : Option ℚ := none
  salary_slips_count : ℕ := 0
deriving DecidableEq, Repr

/-- The `pending_docs` structure consumed by `generate_queries`. -/
structure PendingDocs where
  pending_documents : List String := []
deriving DecidableEq, Repr

/-- The `pending_forms` structure consumed by `generate_queries`. -/
structure PendingForms where
  pending_form_fields : List String := []
deriving DecidableEq, Repr

/-- Rule 1 (query_generator.py lines 23-48): one High document query per
pending document, text chosen by keyword. -/
def rule_pending_documents (pd : PendingDocs) : List Query :=
  pd.pending_documents.map (fun doc =>
    if strContains doc "Salary Slip" then
      { category := "documents", text := QueryText.salarySlipDoc doc, priority := Priority.High }
    else if strContains doc "Form 16" then
      { category := "documents", text := QueryText.form16Doc, priority := Priority.High }
    else if strContains doc "Bank Statement" then
      { category := "documents", text := QueryText.bankStatementDoc, priority := Priority.High }
    else
      { category := "documents", text := QueryText.genericDoc (strUpper doc),
        priority := Priority.High })

/-- Rule 2 (lines 50-62): short employment asks for appointment letter and
resume. -/
def rule_employment (a : AnalysisSummary) : List Query :=
  if a.job_since_years < 3 then
    [{ category := "employment", text := QueryText.appointmentLetter, priority := Priority.Medium },
     { category := "employment", text := QueryText.resumeRequired, priority := Priority.Medium }]
  else []

/-- Rule 2b (lines 64-71): incomplete office address. -/
def rule_office_address (pf : PendingForms) : List Query :=
  if pf.pending_form_fields.any (fun f => strContains f "Office Address") then
    [{ category := "employment", text := QueryText.employerLetter, priority := Priority.High }]
  else []

/-- The obligation query built for one EMI record (lines 76-87). -/
def oblQuery (emi : EmiRecord) : Query :=
  let loan_type := orUnknown emi.loan_type
  let lender := orUnknown emi.lender
  let amount := emi.emi_amount.getD 0
  let loan_type_display := if loan_type ≠ "Unknown" then titleCase loan_type else "Unknown"
  { category := "obligations",
    text := QueryText.loanOutstandingLetter loan_type_display lender amount,
    priority := Priority.High }

/-- Rule 3 (lines 73-87): one High obligation query per EMI record found,
unconditionally. -/
def rule_obligations (a : AnalysisSummary) : List Query :=
  a.emis_found.map oblQuery

/-- Rule 3b (lines 89-95): a credit-card statement when some EMI is of type
`credit card`. -/
def rule_credit_card (a : AnalysisSummary) : List Query :=
  if a.emis_found.any (fun emi => emi.loan_type == some "credit card") then
    [{ category := "obligations", text := QueryText.creditCardStatement,
       priority := Priority.Medium }]
  else []

/-- The substring test `'FOIR' in issue` on the issue messages of
`calculate_eligibility`: only the FOIR-exceeded message contains `FOIR`. -/
def issueMentionsFOIR : IssueTag → Bool
  | .foirExceedsMax => true
  | _ => false

/-- The substring test `'age' in issue.lower()`: the age-limit message
contains `age`, and so does the tenure message (via `based on age`); the
FOIR message does not. -/
def issueMentionsAge : IssueTag → Bool
  | .ageExceedsMax => true
  | .tenureExceedsMax => true
  | .foirExceedsMax => false

/-- Rule 4 (lines 97-115): for an ineligible result, each issue mentioning
FOIR yields a Critical query and each issue mentioning age a High one. -/
def rule_eligibility_issues (er : EligResult) : List Query :=
  if er.eligible then []
  else
    (er.issues.map (fun iss =>
      (if issueMentionsFOIR iss then
        [{ category := "eligibility",
           text := QueryText.foirNotAsPerNorms er.foir_with_requested_loan,
           priority := Priority.Critical }]
       else []) ++
      (if issueMentionsAge iss then
        [{ category := "eligibility", text := QueryText.loanTermNotAsPerNorms,
           priority := Priority.High }]
       else []))).flatten

/-- Rule 5 (lines 117-124): stretched pre-loan FOIR (hard-coded 40). -/
def rule_stretched_ratios (er : EligResult) : List Query :=
  if 40 < er.current_foir_percent then
    [{ category := "ratios", text := QueryText.stretchedRatios er.current_foir_percent,
       priority := Priority.High }]
  else []

/-- Rule 5b (lines 126-133): low gross income (hard-coded 25000). -/
def rule_low_income (er : EligResult) : List Query :=
  if er.gross_monthly_income < 25000 then
    [{ category := "eligibility", text := QueryText.otherIncomeProof er.gross_monthly_income,
       priority := Priority.Medium }]
  else []

/-- Rule 6 (lines 135-143): one High query per pending form field matching a
critical field name. -/
def rule_form_fields (pf : PendingForms) : List Query :=
  (pf.pending_form_fields.map (fun field =>
    if ["Mobile Number", "Email ID", "Current Address", "Office Address"].any
        (fun cf => strContains field cf) then
      [{ category := "verification", text := QueryText.formDetailsIncomplete field,
         priority := Priority.High }]
    else [])).flatten

/-- Rule 7 (lines 145-151): property cost breakup (exact list membership). -/
def rule_property (pf : PendingForms) : List Query :=
  if "Property Address" ∈ pf.pending_form_fields then
    [{ category := "property", text := QueryText.propertyCostBreakup,
       priority := Priority.Medium }]
  else []

/-- Rule 8 (lines 153-159): a single Low reference query. -/
def rule_reference (pf : PendingForms) : List Query :=
  if pf.pending_form_fields.any (fun f => strContains f "Reference") then
    [{ category := "verification", text := QueryText.referenceDetails,
       priority := Priority.Low }]
  else []

/-- Rule 9 (lines 161-172): low average bank balance; a missing or
non-numeric balance coerces to 0. -/
def rule_banking (a : AnalysisSummary) : List Query :=
  let avg_balance := a.average_bank_balance.getD 0
  if avg_balance < 10000 then
    [{ category := "ratios", text := QueryText.bankBalancesLow avg_balance,
       priority := Priority.Medium }]
  else []

/-- Rule 10 (lines 174-181): fewer than 3 salary slips. -/
def rule_salary_count (a : AnalysisSummary) : List Query :=
  if a.salary_slips_count < 3 then
    [{ category := "documents",
       text := QueryText.salarySlipShortage (3 - a.salary_slips_count),
       priority := Priority.High }]
  else []

/-- The query list in generation order: the ten rules of `generate_queries`
(query_generator.py lines 20-181), appended in source order. -/
def generateQueriesRaw (a : AnalysisSummary) (er : EligResult) (pd : PendingDocs)
    (pf : PendingForms) : List Query :=
  rule_pending_documents pd ++ rule_employment a ++ rule_office_address pf ++
    rule_obligations a ++ rule_credit_card a ++ rule_eligibility_issues er ++
    rule_stretched_ratios er ++ rule_low_income er ++ rule_form_fields pf ++
    rule_property pf ++ rule_reference pf ++ rule_banking a ++ rule_salary_count a

/-- The stable sort by priority rank of `queries.sort(key=...)` (line 185).
With the finitely many key values 0-3, the stable sort of a list is exactly
the concatenation of its key-classes in key order, each in original order
(rank 4, the dict-lookup default, is unreachable: every `Priority` ranks
0-3). -/
def sortQueriesByPriority (l : List Query) : List Query :=
  l.filter (fun q => priorityRank q.priority = 0) ++
    l.filter (fun q => priorityRank q.priority = 1) ++
    l.filter (fun q => priorityRank q.priority = 2) ++
    l.filter (fun q => priorityRank q.priority = 3)

/-- `generate_queries` (query_generator.py lines 16-187): run all rules in
order, then stably sort by priority rank. -/
def generate_queries (a : AnalysisSummary) (er : EligResult) (pd : PendingDocs)
    (pf : PendingForms) : List Query :=
  sortQueriesByPriority (generateQueriesRaw a er pd pf)

/-! ### Theorems -/

/-- A ratio input from `[0, 100]` is stored in `[0, 1]` after
normalization. -/
theorem normalizeRatio_mem (x : ℚ) (h0 : 0 ≤ x) (h100 : x ≤ 100) :
    0 ≤ normalizeRatio x ∧ normalizeRatio x ≤ 1 := by
  unfold normalizeRatio
  split_ifs with h1
  · refine ⟨div_nonneg h0 (by norm_num), ?_⟩
    rw [div_le_one (by norm_num)]
    exact h100
  · exact ⟨h0, not_lt.mp h1⟩

/-- Only the membership of the indices actually enumerated matters to the
obligation loop. -/
theorem totObAux_congr (E1 E2 : List ℤ) (l : List EmiRecord) :
    ∀ i : ℕ,
      (∀ j : ℤ, (i : ℤ) ≤ j → j < (i : ℤ) + l.length → (j ∈ E1 ↔ j ∈ E2)) →
      totObAux E1 i l = totObAux E2 i l := by
  induction l with
  | nil => intro i _; rfl
  | cons emi rest ih =>
    intro i h
    have hd : decide ((i : ℤ) ∈ E1) = decide ((i : ℤ) ∈ E2) :=
      decide_eq_decide.mpr
        (h i le_rfl (by simp only [List.length_cons]; push_cast; omega))
    have ht : totObAux E1 (i + 1) rest = totObAux E2 (i + 1) rest := by
      refine ih (i + 1) (fun j hj1 hj2 => h j ?_ ?_)
      · push_cast at hj1 ⊢; omega
      · simp only [List.length_cons]
        push_cast at hj2 ⊢
        omega
    simp only [totObAux, hd, ht]

/-- C10: exclusion indices that are out of range for the obligation list are
silently ignored: the total and the detail list are the same as with those
indices removed (and the computation is total, so no error is possible). -/
theorem C10_stale_exclusion_indices (emis_list : List EmiRecord)
    (excluded_emis : List ℤ) :
    calculate_total_obligations emis_list excluded_emis =
      calculate_total_obligations emis_list
        (excluded_emis.filter (fun j => decide (0 ≤ j ∧ j < (emis_list.length : ℤ)))) := by
  unfold calculate_total_obligations
  refine totObAux_congr _ _ emis_list 0 (fun j hj1 hj2 => ?_)
  push_cast at hj1 hj2
  simp only [List.mem_filter, decide_eq_true_eq]
  constructor
  · intro hm
    exact ⟨hm, by omega, by omega⟩
  · rintro ⟨hm, -⟩
    exact hm

/-- C3: for a non-empty record list, `avg_fixed` is the total of the ten
fixed components over all records divided by the record count,
`avg_variable_considerable` is the total of the five variable components
divided by the fixed constant 6 and halved, and the gross income is their
sum; the empty list yields all zeros. -/
theorem C3_gross_monthly_income (salary_slips : List Earnings)
    (h : salary_slips ≠ []) :
    (calculate_gross_monthly_income salary_slips).avg_fixed =
        (salary_slips.map (fun s => ((categorize_salary_components s).1).sum)).sum /
          (salary_slips.length : ℚ) ∧
    (calculate_gross_monthly_income salary_slips).avg_variable_considerable =
        ((salary_slips.map (fun s => ((categorize_salary_components s).2).sum)).sum / 6) *
          (1 / 2) ∧
    (calculate_gross_monthly_income salary_slips).gross_monthly =
        (calculate_gross_monthly_income salary_slips).avg_fixed +
          (calculate_gross_monthly_income salary_slips).avg_variable_considerable ∧
    calculate_gross_monthly_income [] = ⟨0, 0, 0⟩ := by
  unfold calculate_gross_monthly_income
  rw [if_neg h]
  exact ⟨rfl, rfl, rfl, by rw [if_pos rfl]⟩

/-- A concrete salary slip used by witnesses. -/
def slipA : Earnings :=
  { basic := some 50000, hra := some 20000, special_allowance := some 10000,
    bonus := some 6000 }

/-- Witness for C3 at the one-slip list `[slipA]`. -/
theorem C3_witness :
    (calculate_gross_monthly_income [slipA]).avg_fixed =
        ([slipA].map (fun s => ((categorize_salary_components s).1).sum)).sum /
          (([slipA] : List Earnings).length : ℚ) ∧
    (calculate_gross_monthly_income [slipA]).avg_variable_considerable =
        (([slipA].map (fun s => ((categorize_salary_components s).2).sum)).sum / 6) *
          (1 / 2) ∧
    (calculate_gross_monthly_income [slipA]).gross_monthly =
        (calculate_gross_monthly_income [slipA]).avg_fixed +
          (calculate_gross_monthly_income [slipA]).avg_variable_considerable ∧
    calculate_gross_monthly_income [] = ⟨0, 0, 0⟩ :=
  C3_gross_monthly_income [slipA] (by decide)

/-- C7 counterexample: supplying 150 for `foir_salaried` stores 1.5, which
is not in `[0, 1]`; the stored-ratio invariant of the claim fails. -/
theorem C7_counterexample :
    ¬ (0 ≤ (update_config defaultConfig { foir_salaried := some 150 }).FOIR_SALARIED ∧
        (update_config defaultConfig { foir_salaried := some 150 }).FOIR_SALARIED ≤ 1) := by
  with_unfolding_all decide

/-- C7 (amended): a supplied ratio value above 1 is divided by 100 and one at
most 1 is stored as-is; and provided every supplied ratio value lies in
`[0, 100]` (and, for `update_config`, the fields already stored do), the
stored ratio fields lie in `[0, 1]` after construction and after update. -/
theorem C7_ratio_normalization (c : Config) (ci : ConfigInput)
    (hc1 : 0 ≤ c.FOIR_SALARIED) (hc2 : c.FOIR_SALARIED ≤ 1)
    (hc3 : 0 ≤ c.HIGH_FOIR_THRESHOLD) (hc4 : c.HIGH_FOIR_THRESHOLD ≤ 1)
    (hf : ∀ x, ci.foir_salaried = some x → 0 ≤ x ∧ x ≤ 100)
    (hh : ∀ x, ci.high_foir_threshold = some x → 0 ≤ x ∧ x ≤ 100) :
    (∀ x : ℚ, 1 < x → normalizeRatio x = x / 100) ∧
    (∀ x : ℚ, x ≤ 1 → normalizeRatio x = x) ∧
    (0 ≤ (initCalc ci).FOIR_SALARIED ∧ (initCalc ci).FOIR_SALARIED ≤ 1) ∧
    (0 ≤ (initCalc ci).HIGH_FOIR_THRESHOLD ∧ (initCalc ci).HIGH_FOIR_THRESHOLD ≤ 1) ∧
    (0 ≤ (update_config c ci).FOIR_SALARIED ∧ (update_config c ci).FOIR_SALARIED ≤ 1) ∧
    (0 ≤ (update_config c ci).HIGH_FOIR_THRESHOLD ∧
      (update_config c ci).HIGH_FOIR_THRESHOLD ≤ 1) := by
  refine ⟨fun x hx => by rw [normalizeRatio, if_pos hx],
    fun x hx => by rw [normalizeRatio, if_neg (not_lt.mpr hx)], ?_, ?_, ?_, ?_⟩
  · cases hx : ci.foir_salaried with
    | none => simpa [initCalc, hx] using normalizeRatio_mem 60 (by norm_num) (by norm_num)
    | some x => simpa [initCalc, hx] using normalizeRatio_mem x (hf x hx).1 (hf x hx).2
  · cases hx : ci.high_foir_threshold with
    | none => simpa [initCalc, hx] using normalizeRatio_mem 40 (by norm_num) (by norm_num)
    | some x => simpa [initCalc, hx] using normalizeRatio_mem x (hh x hx).1 (hh x hx).2
  · cases hx : ci.foir_salaried with
    | none => simpa [update_config, hx] using And.intro hc1 hc2
    | some x => simpa [update_config, hx] using normalizeRatio_mem x (hf x hx).1 (hf x hx).2
  · cases hx : ci.high_foir_threshold with
    | none => simpa [update_config, hx] using And.intro hc3 hc4
    | some x => simpa [update_config, hx] using normalizeRatio_mem x (hh x hx).1 (hh x hx).2

/-- A concrete config update used by the C7 witness. -/
def ciW : ConfigInput :=
  { foir_salaried := some 75, high_foir_threshold := some 30 }

/-- Witness for C7 (amended) at `defaultConfig` updated with `ciW`. -/
theorem C7_witness :
    (∀ x : ℚ, 1 < x → normalizeRatio x = x / 100) ∧
    (∀ x : ℚ, x ≤ 1 → normalizeRatio x = x) ∧
    (0 ≤ (initCalc ciW).FOIR_SALARIED ∧ (initCalc ciW).FOIR_SALARIED ≤ 1) ∧
    (0 ≤ (initCalc ciW).HIGH_FOIR_THRESHOLD ∧ (initCalc ciW).HIGH_FOIR_THRESHOLD ≤ 1) ∧
    (0 ≤ (update_config defaultConfig ciW).FOIR_SALARIED ∧
      (update_config defaultConfig ciW).FOIR_SALARIED ≤ 1) ∧
    (0 ≤ (update_config defaultConfig ciW).HIGH_FOIR_THRESHOLD ∧
      (update_config defaultConfig ciW).HIGH_FOIR_THRESHOLD ≤ 1) :=
  C7_ratio_normalization defaultConfig ciW
    (by with_unfolding_all decide) (by with_unfolding_all decide)
    (by with_unfolding_all decide) (by with_unfolding_all decide)
    (fun x h => by
      simp only [ciW, Option.some.injEq] at h
      subst h
      norm_num)
    (fun x h => by
      simp only [ciW, Option.some.injEq] at h
      subst h
      norm_num)

/-- The amortization inverse never faults at a non-negative tenure. -/
theorem calculate_loan_amount_from_emi_isSome (emi interest_rate : ℚ) (tm : ℤ)
    (h : 0 ≤ tm) :
    (calculate_loan_amount_from_emi emi interest_rate tm).isSome = true := by
  by_cases h1 : interest_rate = 0
  · simp [calculate_loan_amount_from_emi, h1]
  · have hcond : ¬(1 + interest_rate / (12 * 100) = 0 ∧ tm < 0) :=
      fun hc => absurd hc.2 (not_lt.mpr h)
    simp only [calculate_loan_amount_from_emi, if_neg h1, if_neg hcond]
    split_ifs <;> rfl

/-- The requested-loan EMI step never faults at a positive tenure. -/
theorem emiForRequestedStep_isSome (amt rate : ℚ) (tm : ℤ) (h : 0 < tm) :
    (emiForRequestedStep amt rate tm).isSome = true := by
  by_cases h1 : 0 < rate
  · have hne : (1 + rate / (12 * 100)) ^ tm - 1 ≠ 0 := by
      have hmr : (1 : ℚ) < 1 + rate / (12 * 100) := by
        have : 0 < rate / (12 * 100) := div_pos h1 (by norm_num)
        linarith
      have hgt := one_lt_zpow₀ hmr h
      intro h0
      have := sub_eq_zero.mp h0
      linarith
    simp [emiForRequestedStep, h1, hne]
  · have hne : ((tm : ℚ)) ≠ 0 := Int.cast_ne_zero.mpr (by omega)
    simp [emiForRequestedStep, h1, hne]

/-- C1 (amended): `calculate_foir` is guarded against zero income, and
`calculate_eligibility` propagates no division fault whenever the tenure in
force is positive.  (The claim's universal no-fault statement is refuted by
`C1_counterexample`: a zero tenure makes the unguarded requested-EMI
division raise.) -/
theorem C1_guarded_divisions (c : Config) (age : ℤ) (salary_slips : List Earnings)
    (emis_list : List EmiRecord) (requested_loan_amount : ℚ)
    (requested_tenure_years : Option ℤ) (interest_rate : ℚ) (excluded_emis : List ℤ)
    (h : 0 < tenureUsed c age requested_tenure_years) :
    (∀ t : ℚ, calculate_foir t 0 = 0) ∧
    (calculate_eligibility c age salary_slips emis_list requested_loan_amount
        requested_tenure_years interest_rate excluded_emis).isSome = true := by
  refine ⟨fun t => by rw [calculate_foir, if_pos rfl], ?_⟩
  have htm : 0 < tenureUsed c age requested_tenure_years * 12 := by omega
  have h1 := calculate_loan_amount_from_emi_isSome
    (calculate_maximum_emi c (grossIncomeOf salary_slips)
      (totalObligationsOf emis_list excluded_emis))
    interest_rate (tenureUsed c age requested_tenure_years * 12) (le_of_lt htm)
  have h2 := emiForRequestedStep_isSome requested_loan_amount interest_rate
    (tenureUsed c age requested_tenure_years * 12) htm
  rw [Option.isSome_iff_exists] at h1 h2
  obtain ⟨M, hM⟩ := h1
  obtain ⟨e, he⟩ := h2
  have hM' : maxLoanByIncomeStep c age salary_slips emis_list
      requested_tenure_years interest_rate excluded_emis = some M := hM
  simp only [calculate_eligibility, hM', he, Option.isSome_some]

/-- C1 counterexample: at age 65 (above the default maximum 60) with
auto-computed tenure, the tenure in force is 0 months and the requested-EMI
division faults, so `calculate_eligibility` propagates a division fault. -/
theorem C1_counterexample :
    calculate_eligibility defaultConfig 65 [] [] 100000 none (17 / 2) [] = none := by
  with_unfolding_all decide

/-- Witness for C1 (amended) at a 30-year-old with auto tenure. -/
theorem C1_witness :
    0 < tenureUsed defaultConfig 30 none ∧
    ((∀ t : ℚ, calculate_foir t 0 = 0) ∧
      (calculate_eligibility defaultConfig 30 [] [] 100000 none (17 / 2) []).isSome = true) :=
  ⟨by decide, C1_guarded_divisions defaultConfig 30 [] [] 100000 none (17 / 2) [] (by decide)⟩

/-- With both division steps successful, `calculate_eligibility` returns the
assembled verdict. -/
theorem calculate_eligibility_eq (c : Config) (age : ℤ) (salary_slips : List Earnings)
    (emis_list : List EmiRecord) (requested_loan_amount : ℚ)
    (requested_tenure_years : Option ℤ) (interest_rate : ℚ) (excluded_emis : List ℤ)
    (M e : ℚ)
    (hM : maxLoanByIncomeStep c age salary_slips emis_list requested_tenure_years
        interest_rate excluded_emis = some M)
    (he : emiForRequestedStep requested_loan_amount interest_rate
        (tenureUsed c age requested_tenure_years * 12) = some e) :
    calculate_eligibility c age salary_slips emis_list requested_loan_amount
        requested_tenure_years interest_rate excluded_emis =
      some (eligVerdict c age salary_slips emis_list requested_loan_amount
        requested_tenure_years excluded_emis M e) := by
  simp only [calculate_eligibility, hM, he]

/-- C5: `remaining_service_years = max(0, MAX_AGE_SALARIED - age)`,
`max_tenure = min(MAX_TENURE_YEARS, remaining_service_years)`, a missing
requested tenure defaults to `max_tenure`, and a request above `max_tenure`
records an issue and clamps the tenure used downstream. -/
theorem C5_tenure_bounds (c : Config) (age : ℤ) (salary_slips : List Earnings)
    (emis_list : List EmiRecord) (requested_loan_amount : ℚ)
    (requested_tenure_years : Option ℤ) (interest_rate : ℚ) (excluded_emis : List ℤ)
    (M e : ℚ)
    (hM : maxLoanByIncomeStep c age salary_slips emis_list requested_tenure_years
        interest_rate excluded_emis = some M)
    (he : emiForRequestedStep requested_loan_amount interest_rate
        (tenureUsed c age requested_tenure_years * 12) = some e) :
    calculate_remaining_service_years age c.MAX_AGE_SALARIED =
        max 0 (c.MAX_AGE_SALARIED - age) ∧
    maxTenureAllowed c age =
        min c.MAX_TENURE_YEARS (calculate_remaining_service_years age c.MAX_AGE_SALARIED) ∧
    (requested_tenure_years = none →
      tenureUsed c age requested_tenure_years = maxTenureAllowed c age) ∧
    ∃ r, calculate_eligibility c age salary_slips emis_list requested_loan_amount
          requested_tenure_years interest_rate excluded_emis = some r ∧
      r.remaining_service_years = calculate_remaining_service_years age c.MAX_AGE_SALARIED ∧
      r.max_tenure_allowed = maxTenureAllowed c age ∧
      r.approved_tenure_years = tenureUsed c age requested_tenure_years ∧
      (∀ t : ℤ, requested_tenure_years = some t → maxTenureAllowed c age < t →
        IssueTag.tenureExceedsMax ∈ r.issues ∧
        r.approved_tenure_years = maxTenureAllowed c age) := by
  refine ⟨rfl, rfl, fun hnone => by simp [tenureUsed, hnone], ?_⟩
  refine ⟨_, calculate_eligibility_eq c age salary_slips emis_list requested_loan_amount
    requested_tenure_years interest_rate excluded_emis M e hM he, ?_, ?_, ?_, ?_⟩
  · simp [eligVerdict]
  · simp [eligVerdict]
  · simp [eligVerdict]
  · intro t ht hlt
    constructor
    · have hmem : IssueTag.tenureExceedsMax ∈
          (if maxTenureAllowed c age <
              requested_tenure_years.getD (maxTenureAllowed c age) then
            [IssueTag.tenureExceedsMax]
           else ([] : List IssueTag)) := by
        simp [ht, hlt]
      simp only [eligVerdict]
      exact List.mem_append_left _ (List.mem_append_right _ hmem)
    · simp [eligVerdict, tenureUsed, ht, hlt]

/-- Witness for C5 at the spec's Scenario B: age 58, default maximum age 60,
requested tenure 10 years. -/
theorem C5_witness :
    calculate_remaining_service_years 58 defaultConfig.MAX_AGE_SALARIED =
        max 0 (defaultConfig.MAX_AGE_SALARIED - 58) ∧
    maxTenureAllowed defaultConfig 58 =
        min defaultConfig.MAX_TENURE_YEARS
          (calculate_remaining_service_years 58 defaultConfig.MAX_AGE_SALARIED) ∧
    ((some 10 : Option ℤ) = none →
      tenureUsed defaultConfig 58 (some 10) = maxTenureAllowed defaultConfig 58) ∧
    ∃ r, calculate_eligibility defaultConfig 58 [] [] 1000000 (some 10) 0 [] = some r ∧
      r.remaining_service_years =
        calculate_remaining_service_years 58 defaultConfig.MAX_AGE_SALARIED ∧
      r.max_tenure_allowed = maxTenureAllowed defaultConfig 58 ∧
      r.approved_tenure_years = tenureUsed defaultConfig 58 (some 10) ∧
      (∀ t : ℤ, (some 10 : Option ℤ) = some t → maxTenureAllowed defaultConfig 58 < t →
        IssueTag.tenureExceedsMax ∈ r.issues ∧
        r.approved_tenure_years = maxTenureAllowed defaultConfig 58) :=
  C5_tenure_bounds defaultConfig 58 [] [] 1000000 (some 10) 0 [] 0 (125000 / 3)
    (by
      have h : tenureUsed defaultConfig 58 (some 10) = 2 := by decide
      norm_num [maxLoanByIncomeStep, calculate_loan_amount_from_emi,
        calculate_maximum_emi, grossIncomeOf, totalObligationsOf,
        calculate_total_obligations, totObAux, calculate_gross_monthly_income, h])
    (by
      have h : tenureUsed defaultConfig 58 (some 10) = 2 := by decide
      norm_num [emiForRequestedStep, h])

/-- C6: by the final verdict the tenure in force never exceeds
`max_tenure_allowed` (it was clamped earlier), so the conditional-approval
warning can only be reached through the age sub-condition. -/
theorem C6_tenure_clamped_invariant (c : Config) (age : ℤ)
    (salary_slips : List Earnings) (emis_list : List EmiRecord)
    (requested_loan_amount : ℚ) (requested_tenure_years : Option ℤ)
    (interest_rate : ℚ) (excluded_emis : List ℤ) (M e : ℚ)
    (hM : maxLoanByIncomeStep c age salary_slips emis_list requested_tenure_years
        interest_rate excluded_emis = some M)
    (he : emiForRequestedStep requested_loan_amount interest_rate
        (tenureUsed c age requested_tenure_years * 12) = some e) :
    tenureUsed c age requested_tenure_years ≤ maxTenureAllowed c age ∧
    ∃ r, calculate_eligibility c age salary_slips emis_list requested_loan_amount
          requested_tenure_years interest_rate excluded_emis = some r ∧
      r.approved_tenure_years ≤ r.max_tenure_allowed ∧
      (WarnTag.conditionalApproval ∈ r.warnings →
        (c.MAX_AGE_SALARIED ≤ age ∧
          calculate_foir (totalObligationsOf emis_list excluded_emis + e)
              (grossIncomeOf salary_slips) ≤ c.FOIR_SALARIED * 100)) := by
  have hle : tenureUsed c age requested_tenure_years ≤ maxTenureAllowed c age := by
    simp only [tenureUsed]
    split_ifs with h
    · exact le_refl _
    · exact not_lt.mp h
  refine ⟨hle, _, calculate_eligibility_eq c age salary_slips emis_list
    requested_loan_amount requested_tenure_years interest_rate excluded_emis M e hM he,
    by simpa [eligVerdict] using hle, ?_⟩
  intro hw
  simp only [eligVerdict] at hw
  by_cases hfoir : calculate_foir (totalObligationsOf emis_list excluded_emis + e)
      (grossIncomeOf salary_slips) ≤ c.FOIR_SALARIED * 100
  · by_cases hage : age < c.MAX_AGE_SALARIED
    · exfalso
      have hat : age < c.MAX_AGE_SALARIED ∧
          tenureUsed c age requested_tenure_years ≤ maxTenureAllowed c age :=
        ⟨hage, hle⟩
      rw [if_pos hfoir, if_pos hat] at hw
      simp only [List.nil_append] at hw
      rw [List.mem_append] at hw
      rcases hw with h1 | h1 <;> (split_ifs at h1 <;> simp_all)
    · exact ⟨not_lt.mp hage, hfoir⟩
  · exfalso
    rw [if_neg hfoir] at hw
    simp only [List.nil_append] at hw
    rw [List.mem_append] at hw
    rcases hw with h1 | h1 <;> (split_ifs at h1 <;> simp_all)

/-- Witness for C6 at a 30-year-old with auto tenure and zero rate. -/
theorem C6_witness :
    tenureUsed defaultConfig 30 none ≤ maxTenureAllowed defaultConfig 30 ∧
    ∃ r, calculate_eligibility defaultConfig 30 [] [] 1200 none 0 [] = some r ∧
      r.approved_tenure_years ≤ r.max_tenure_allowed ∧
      (WarnTag.conditionalApproval ∈ r.warnings →
        (defaultConfig.MAX_AGE_SALARIED ≤ 30 ∧
          calculate_foir (totalObligationsOf [] [] + 10 / 3) (grossIncomeOf []) ≤
            defaultConfig.FOIR_SALARIED * 100)) :=
  C6_tenure_clamped_invariant defaultConfig 30 [] [] 1200 none 0 [] 0 (10 / 3)
    (by
      have h : tenureUsed defaultConfig 30 none = 30 := by decide
      norm_num [maxLoanByIncomeStep, calculate_loan_amount_from_emi,
        calculate_maximum_emi, grossIncomeOf, totalObligationsOf,
        calculate_total_obligations, totObAux, calculate_gross_monthly_income, h])
    (by
      have h : tenureUsed defaultConfig 30 none = 30 := by decide
      norm_num [emiForRequestedStep, h])

/-- C2: the verdict of lines 273-284: `eligible` holds exactly when the
post-loan FOIR is within bounds and age and tenure pass; a FOIR pass with an
age/tenure failure attaches the conditional-approval warning and caps the
approved amount at `min(requested, max_loan_by_income)`; a FOIR failure is
ineligible, records the FOIR issue and surfaces the rounded
`max_loan_by_income` as the recommendation. -/
theorem C2_verdict_branches (c : Config) (age : ℤ) (salary_slips : List Earnings)
    (emis_list : List EmiRecord) (requested_loan_amount : ℚ)
    (requested_tenure_years : Option ℤ) (interest_rate : ℚ) (excluded_emis : List ℤ)
    (M e : ℚ)
    (hM : maxLoanByIncomeStep c age salary_slips emis_list requested_tenure_years
        interest_rate excluded_emis = some M)
    (he : emiForRequestedStep requested_loan_amount interest_rate
        (tenureUsed c age requested_tenure_years * 12) = some e) :
    ∃ r, calculate_eligibility c age salary_slips emis_list requested_loan_amount
          requested_tenure_years interest_rate excluded_emis = some r ∧
      (r.eligible = true ↔
        (calculate_foir (totalObligationsOf emis_list excluded_emis + e)
            (grossIncomeOf salary_slips) ≤ c.FOIR_SALARIED * 100 ∧
          (age < c.MAX_AGE_SALARIED ∧
            tenureUsed c age requested_tenure_years ≤ maxTenureAllowed c age))) ∧
      ((calculate_foir (totalObligationsOf emis_list excluded_emis + e)
            (grossIncomeOf salary_slips) ≤ c.FOIR_SALARIED * 100 ∧
          ¬(age < c.MAX_AGE_SALARIED ∧
            tenureUsed c age requested_tenure_years ≤ maxTenureAllowed c age)) →
        (r.eligible = false ∧ WarnTag.conditionalApproval ∈ r.warnings ∧
          r.approved_loan_amount = some (min requested_loan_amount M))) ∧
      (¬(calculate_foir (totalObligationsOf emis_list excluded_emis + e)
            (grossIncomeOf salary_slips) ≤ c.FOIR_SALARIED * 100) →
        (r.eligible = false ∧ IssueTag.foirExceedsMax ∈ r.issues ∧
          r.recommended_loan_amount = some (round2 M))) := by
  refine ⟨_, calculate_eligibility_eq c age salary_slips emis_list requested_loan_amount
    requested_tenure_years interest_rate excluded_emis M e hM he, ?_, ?_, ?_⟩
  · constructor
    · intro hE
      simp only [eligVerdict] at hE
      split_ifs at hE with h1 h2
      exact ⟨h1, h2⟩
    · rintro ⟨h1, h2⟩
      simp only [eligVerdict]
      rw [if_pos h1, if_pos h2]
  · rintro ⟨hfoir, hnot⟩
    refine ⟨?_, ?_, ?_⟩
    · simp only [eligVerdict]
      rw [if_pos hfoir, if_neg hnot]
    · simp only [eligVerdict]
      rw [if_pos hfoir, if_neg hnot]
      exact List.mem_append_left _ (List.mem_append_left _ (by simp))
    · simp only [eligVerdict]
      rw [if_pos hfoir, if_neg hnot]
  · intro hfoir
    refine ⟨?_, ?_, ?_⟩
    · simp only [eligVerdict]
      rw [if_neg hfoir]
    · simp only [eligVerdict]
      rw [if_neg hfoir]
      exact List.mem_append_right _ (by simp)
    · simp only [eligVerdict]
      rw [if_neg hfoir]

/-- Witness for C2 at an eligible 30-year-old: one salary slip, no
obligations, requested 100 at zero rate. -/
theorem C2_witness :
    ∃ r, calculate_eligibility defaultConfig 30 [slipA] [] 100 none 0 [] = some r ∧
      (r.eligible = true ↔
        (calculate_foir (totalObligationsOf [] [] + 5 / 18) (grossIncomeOf [slipA]) ≤
            defaultConfig.FOIR_SALARIED * 100 ∧
          (30 < defaultConfig.MAX_AGE_SALARIED ∧
            tenureUsed defaultConfig 30 none ≤ maxTenureAllowed defaultConfig 30))) ∧
      ((calculate_foir (totalObligationsOf [] [] + 5 / 18) (grossIncomeOf [slipA]) ≤
            defaultConfig.FOIR_SALARIED * 100 ∧
          ¬(30 < defaultConfig.MAX_AGE_SALARIED ∧
            tenureUsed defaultConfig 30 none ≤ maxTenureAllowed defaultConfig 30)) →
        (r.eligible = false ∧ WarnTag.conditionalApproval ∈ r.warnings ∧
          r.approved_loan_amount = some (min 100 17388000))) ∧
      (¬(calculate_foir (totalObligationsOf [] [] + 5 / 18) (grossIncomeOf [slipA]) ≤
            defaultConfig.FOIR_SALARIED * 100) →
        (r.eligible = false ∧ IssueTag.foirExceedsMax ∈ r.issues ∧
          r.recommended_loan_amount = some (round2 17388000))) :=
  C2_verdict_branches defaultConfig 30 [slipA] [] 100 none 0 [] 17388000 (5 / 18)
    (by
      have h : tenureUsed defaultConfig 30 none = 30 := by decide
      have hg : grossIncomeOf [slipA] = 80500 := by
        norm_num [grossIncomeOf, calculate_gross_monthly_income,
          categorize_salary_components, slipA]
      have ht : totalObligationsOf [] [] = 0 := rfl
      have hF : defaultConfig.FOIR_SALARIED = 3 / 5 := by
        norm_num [defaultConfig, initCalc, normalizeRatio]
      simp only [maxLoanByIncomeStep, h, hg, ht, hF, calculate_maximum_emi]
      norm_num [calculate_loan_amount_from_emi, max_eq_right])
    (by
      have h : tenureUsed defaultConfig 30 none = 30 := by decide
      simp only [emiForRequestedStep, h]
      norm_num)

/-- Excluding more indices can only lower the obligation loop total, given
non-negative EMI amounts. -/
theorem totObAux_total_mono (E1 E2 : List ℤ) (hsub : ∀ j : ℤ, j ∈ E1 → j ∈ E2) :
    ∀ l : List EmiRecord, (∀ m ∈ l, 0 ≤ m.emi_amount.getD 0) →
      ∀ i : ℕ, (totObAux E2 i l).1 ≤ (totObAux E1 i l).1 := by
  intro l
  induction l with
  | nil => intro _ i; exact le_refl _
  | cons emi rest ih =>
    intro hamt i
    have h0 : 0 ≤ emi.emi_amount.getD 0 := hamt emi (List.mem_cons_self _ _)
    have hrest := ih (fun m hm => hamt m (List.mem_cons_of_mem _ hm)) (i + 1)
    simp only [totObAux]
    refine add_le_add ?_ hrest
    by_cases h1 : (i : ℤ) ∈ E1
    · simp [h1, hsub _ h1]
    · by_cases h2 : (i : ℤ) ∈ E2
      · simp [h1, h2, h0]
      · simp [h1, h2]

/-- `calculate_foir` is monotone in the obligations argument for a
non-negative income. -/
theorem calculate_foir_mono (g t1 t2 : ℚ) (hg : 0 ≤ g) (h : t2 ≤ t1) :
    calculate_foir t2 g ≤ calculate_foir t1 g := by
  unfold calculate_foir
  split_ifs with h0
  · exact le_refl 0
  · have hgpos : 0 < g := lt_of_le_of_ne hg (fun heq => h0 heq.symm)
    exact mul_le_mul_of_nonneg_right ((div_le_div_iff_of_pos_right hgpos).mpr h) (by norm_num)

/-- Rounding to 2 decimals is monotone. -/
theorem round2_mono (x y : ℚ) (h : x ≤ y) : round2 x ≤ round2 y := by
  unfold round2
  have hr : round (x * 100) ≤ round (y * 100) := by
    rw [round_eq, round_eq]
    exact Int.floor_le_floor (by linarith)
  have hc : ((round (x * 100) : ℤ) : ℚ) ≤ ((round (y * 100) : ℤ) : ℚ) := by
    exact_mod_cast hr
  exact (div_le_div_iff_of_pos_right (by norm_num)).mpr hc

/-- C4: enlarging the exclusion set (with non-negative EMI amounts and
non-negative income, as the data model prescribes) never increases the
obligation total, never increases the post-loan FOIR, and can only move the
verdict from ineligible to eligible. -/
theorem C4_exclusion_monotonicity (c : Config) (age : ℤ)
    (salary_slips : List Earnings) (emis_list : List EmiRecord)
    (requested_loan_amount : ℚ) (requested_tenure_years : Option ℤ)
    (interest_rate : ℚ) (E1 E2 : List ℤ)
    (hsub : ∀ j : ℤ, j ∈ E1 → j ∈ E2)
    (hamt : ∀ m ∈ emis_list, 0 ≤ m.emi_amount.getD 0)
    (hg : 0 ≤ grossIncomeOf salary_slips) :
    totalObligationsOf emis_list E2 ≤ totalObligationsOf emis_list E1 ∧
    (∀ e : ℚ,
      calculate_foir (totalObligationsOf emis_list E2 + e) (grossIncomeOf salary_slips) ≤
        calculate_foir (totalObligationsOf emis_list E1 + e) (grossIncomeOf salary_slips)) ∧
    (∀ r1 r2 : EligResult,
      calculate_eligibility c age salary_slips emis_list requested_loan_amount
          requested_tenure_years interest_rate E1 = some r1 →
      calculate_eligibility c age salary_slips emis_list requested_loan_amount
          requested_tenure_years interest_rate E2 = some r2 →
      r2.foir_with_requested_loan ≤ r1.foir_with_requested_loan ∧
      (r1.eligible = true → r2.eligible = true)) := by
  have htot : totalObligationsOf emis_list E2 ≤ totalObligationsOf emis_list E1 :=
    totObAux_total_mono E1 E2 hsub emis_list hamt 0
  refine ⟨htot, fun e => calculate_foir_mono _ _ _ hg (add_le_add_right htot e), ?_⟩
  intro r1 r2 h1 h2
  cases hM1 : maxLoanByIncomeStep c age salary_slips emis_list requested_tenure_years
      interest_rate E1 with
  | none =>
    simp only [calculate_eligibility, hM1] at h1
    exact Option.noConfusion h1
  | some M1 =>
    cases he1 : emiForRequestedStep requested_loan_amount interest_rate
        (tenureUsed c age requested_tenure_years * 12) with
    | none =>
      simp only [calculate_eligibility, hM1, he1] at h1
      exact Option.noConfusion h1
    | some e =>
      cases hM2 : maxLoanByIncomeStep c age salary_slips emis_list requested_tenure_years
          interest_rate E2 with
      | none =>
        simp only [calculate_eligibility, hM2] at h2
        exact Option.noConfusion h2
      | some M2 =>
        simp only [calculate_eligibility, hM1, hM2, he1, Option.some.injEq] at h1 h2
        subst h1
        subst h2
        constructor
        · simp only [eligVerdict]
          exact round2_mono _ _ (calculate_foir_mono _ _ _ hg (add_le_add_right htot e))
        · intro hE
          simp only [eligVerdict] at hE ⊢
          split_ifs at hE with h1f h1at
          rw [if_pos (le_trans
            (calculate_foir_mono _ _ _ hg (add_le_add_right htot e)) h1f),
            if_pos h1at]

/-- A concrete obligation record used by the C4 witness. -/
def emiB : EmiRecord :=
  { lender := some "HDFC", emi_amount := some 5000, loan_type := some "home" }

/-- Witness for C4: excluding obligation 0 versus excluding nothing. -/
theorem C4_witness :
    totalObligationsOf [emiB] [0] ≤ totalObligationsOf [emiB] [] ∧
    (∀ e : ℚ,
      calculate_foir (totalObligationsOf [emiB] [0] + e) (grossIncomeOf [slipA]) ≤
        calculate_foir (totalObligationsOf [emiB] [] + e) (grossIncomeOf [slipA])) ∧
    (∀ r1 r2 : EligResult,
      calculate_eligibility defaultConfig 30 [slipA] [emiB] 100 none 0 [] = some r1 →
      calculate_eligibility defaultConfig 30 [slipA] [emiB] 100 none 0 [0] = some r2 →
      r2.foir_with_requested_loan ≤ r1.foir_with_requested_loan ∧
      (r1.eligible = true → r2.eligible = true)) :=
  C4_exclusion_monotonicity defaultConfig 30 [slipA] [emiB] 100 none 0 [] [0]
    (by simp)
    (by
      intro m hm
      rw [List.mem_singleton] at hm
      subst hm
      norm_num [emiB])
    (by norm_num [grossIncomeOf, calculate_gross_monthly_income,
      categorize_salary_components, slipA])

/-- Membership in a priority-rank bucket determines the rank. -/
theorem mem_rank_filter {l : List Query} {i : ℕ} {q : Query}
    (h : q ∈ l.filter (fun x => priorityRank x.priority = i)) :
    priorityRank q.priority = i := by
  have h2 := (List.mem_filter.mp h).2
  simpa using h2

/-- The bucket concatenation is sorted by priority rank. -/
theorem sortQueries_sorted (l : List Query) :
    List.Pairwise (fun q1 q2 => priorityRank q1.priority ≤ priorityRank q2.priority)
      (sortQueriesByPriority l) := by
  unfold sortQueriesByPriority
  refine List.pairwise_append.mpr ⟨List.pairwise_append.mpr
    ⟨List.pairwise_append.mpr ⟨?_, ?_, ?_⟩, ?_, ?_⟩, ?_, ?_⟩
  · exact List.pairwise_of_forall_mem_list fun a ha b hb =>
      le_of_eq (by rw [mem_rank_filter ha, mem_rank_filter hb])
  · exact List.pairwise_of_forall_mem_list fun a ha b hb =>
      le_of_eq (by rw [mem_rank_filter ha, mem_rank_filter hb])
  · intro a ha b hb
    have h1 := mem_rank_filter ha
    have h2 := mem_rank_filter hb
    omega
  · exact List.pairwise_of_forall_mem_list fun a ha b hb =>
      le_of_eq (by rw [mem_rank_filter ha, mem_rank_filter hb])
  · intro a ha b hb
    rw [List.mem_append] at ha
    have h2 := mem_rank_filter hb
    rcases ha with h | h <;> (have h1 := mem_rank_filter h; omega)
  · exact List.pairwise_of_forall_mem_list fun a ha b hb =>
      le_of_eq (by rw [mem_rank_filter ha, mem_rank_filter hb])
  · intro a ha b hb
    rw [List.mem_append, List.mem_append] at ha
    have h2 := mem_rank_filter hb
    rcases ha with (h | h) | h <;> (have h1 := mem_rank_filter h; omega)

/-- Filtering a rank bucket by a priority keeps everything (when the
priority has that rank) or nothing (otherwise). -/
theorem rank_filter_then_priority (l : List Query) (p : Priority) (i : ℕ) :
    (l.filter (fun x => priorityRank x.priority = i)).filter
        (fun x => x.priority = p) =
      if priorityRank p = i then l.filter (fun x => x.priority = p) else [] := by
  rw [List.filter_filter]
  split_ifs with hip
  · refine List.filter_congr fun a _ => ?_
    by_cases hap : a.priority = p
    · simp [hap, hip]
    · simp [hap]
  · rw [List.filter_eq_nil_iff]
    intro a _
    simp only [Bool.and_eq_true, decide_eq_true_eq, not_and]
    intro h1 h2
    exact hip (by rw [← h1]; exact h2)

/-- The bucket concatenation is a stable sort: the subsequence of each
priority is untouched. -/
theorem sortQueries_stable (l : List Query) (p : Priority) :
    (sortQueriesByPriority l).filter (fun q => q.priority = p) =
      l.filter (fun q => q.priority = p) := by
  unfold sortQueriesByPriority
  simp only [List.filter_append, rank_filter_then_priority]
  cases p <;> simp [priorityRank]

/-- C9: the output of `generate_queries` is sorted by priority rank
(Critical 0, High 1, Medium 2, Low 3), and within each priority the
generation order of the rules is preserved (stable sort). -/
theorem C9_priority_sorted_stable (a : AnalysisSummary) (er : EligResult)
    (pd : PendingDocs) (pf : PendingForms) :
    List.Pairwise (fun q1 q2 => priorityRank q1.priority ≤ priorityRank q2.priority)
      (generate_queries a er pd pf) ∧
    ∀ p : Priority,
      (generate_queries a er pd pf).filter (fun q => q.priority = p) =
        (generateQueriesRaw a er pd pf).filter (fun q => q.priority = p) :=
  ⟨sortQueries_sorted _, fun p => sortQueries_stable _ p⟩

/-- Members of a guarded singleton rule inherit its text shape. -/
theorem isObl_false_of_mem_ite_one {c : Prop} [Decidable c] {k q : Query}
    (h : q ∈ (if c then [k] else ([] : List Query)))
    (hk : k.text.isOblLetter = false) :
    q.text.isOblLetter = false := by
  split_ifs at h
  · rw [List.mem_singleton] at h
    subst h
    exact hk
  · simp at h

/-- Rule 1 produces only document queries. -/
theorem rule_pending_documents_isObl (pd : PendingDocs) :
    ∀ q ∈ rule_pending_documents pd, q.text.isOblLetter = false := by
  intro q hq
  obtain ⟨doc, -, rfl⟩ := List.mem_map.mp hq
  split_ifs <;> rfl

/-- Rule 2 produces only employment queries. -/
theorem rule_employment_isObl (a : AnalysisSummary) :
    ∀ q ∈ rule_employment a, q.text.isOblLetter = false := by
  intro q hq
  unfold rule_employment at hq
  split_ifs at hq
  · simp only [List.mem_cons, List.mem_singleton] at hq
    rcases hq with rfl | rfl | h
    · rfl
    · rfl
    · simp at h
  · simp at hq

/-- Rule 2b produces only the employer-letter query. -/
theorem rule_office_address_isObl (pf : PendingForms) :
    ∀ q ∈ rule_office_address pf, q.text.isOblLetter = false := by
  intro q hq
  unfold rule_office_address at hq
  exact isObl_false_of_mem_ite_one hq rfl

/-- Rule 3b produces only the credit-card query. -/
theorem rule_credit_card_isObl (a : AnalysisSummary) :
    ∀ q ∈ rule_credit_card a, q.text.isOblLetter = false := by
  intro q hq
  unfold rule_credit_card at hq
  exact isObl_false_of_mem_ite_one hq rfl

/-- Rule 4 produces only eligibility queries. -/
theorem rule_eligibility_issues_isObl (er : EligResult) :
    ∀ q ∈ rule_eligibility_issues er, q.text.isOblLetter = false := by
  intro q hq
  unfold rule_eligibility_issues at hq
  split_ifs at hq
  · simp at hq
  · rw [List.mem_flatten] at hq
    obtain ⟨L, hL, hqL⟩ := hq
    obtain ⟨iss, -, rfl⟩ := List.mem_map.mp hL
    rw [List.mem_append] at hqL
    rcases hqL with h | h <;> exact isObl_false_of_mem_ite_one h rfl

/-- Rule 5 produces only the stretched-ratios query. -/
theorem rule_stretched_ratios_isObl (er : EligResult) :
    ∀ q ∈ rule_stretched_ratios er, q.text.isOblLetter = false := by
  intro q hq
  unfold rule_stretched_ratios at hq
  exact isObl_false_of_mem_ite_one hq rfl

/-- Rule 5b produces only the income-proof query. -/
theorem rule_low_income_isObl (er : EligResult) :
    ∀ q ∈ rule_low_income er, q.text.isOblLetter = false := by
  intro q hq
  unfold rule_low_income at hq
  exact isObl_false_of_mem_ite_one hq rfl

/-- Rule 6 produces only form-details queries. -/
theorem rule_form_fields_isObl (pf : PendingForms) :
    ∀ q ∈ rule_form_fields pf, q.text.isOblLetter = false := by
  intro q hq
  unfold rule_form_fields at hq
  rw [List.mem_flatten] at hq
  obtain ⟨L, hL, hqL⟩ := hq
  obtain ⟨field, -, rfl⟩ := List.mem_map.mp hL
  exact isObl_false_of_mem_ite_one hqL rfl

/-- Rule 7 produces only the property query. -/
theorem rule_property_isObl (pf : PendingForms) :
    ∀ q ∈ rule_property pf, q.text.isOblLetter = false := by
  intro q hq
  unfold rule_property at hq
  exact isObl_false_of_mem_ite_one hq rfl

/-- Rule 8 produces only the reference query. -/
theorem rule_reference_isObl (pf : PendingForms) :
    ∀ q ∈ rule_reference pf, q.text.isOblLetter = false := by
  intro q hq
  unfold rule_reference at hq
  exact isObl_false_of_mem_ite_one hq rfl

/-- Rule 9 produces only the bank-balance query. -/
theorem rule_banking_isObl (a : AnalysisSummary) :
    ∀ q ∈ rule_banking a, q.text.isOblLetter = false := by
  intro q hq
  unfold rule_banking at hq
  exact isObl_false_of_mem_ite_one hq rfl

/-- Rule 10 produces only the salary-slip-shortage query. -/
theorem rule_salary_count_isObl (a : AnalysisSummary) :
    ∀ q ∈ rule_salary_count a, q.text.isOblLetter = false := by
  intro q hq
  unfold rule_salary_count at hq
  exact isObl_false_of_mem_ite_one hq rfl

/-- A list all of whose members fail the test filters to nothing. -/
theorem filter_isObl_eq_nil {L : List Query}
    (h : ∀ q ∈ L, q.text.isOblLetter = false) :
    L.filter (fun q => q.text.isOblLetter) = [] := by
  rw [List.filter_eq_nil_iff]
  intro q hq
  simp [h q hq]

/-- In generation order, the obligation-letter queries are exactly one per
EMI record found, in input order. -/
theorem raw_filter_isObl (a : AnalysisSummary) (er : EligResult)
    (pd : PendingDocs) (pf : PendingForms) :
    (generateQueriesRaw a er pd pf).filter (fun q => q.text.isOblLetter) =
      a.emis_found.map oblQuery := by
  unfold generateQueriesRaw
  simp only [List.filter_append]
  rw [filter_isObl_eq_nil (rule_pending_documents_isObl pd),
    filter_isObl_eq_nil (rule_employment_isObl a),
    filter_isObl_eq_nil (rule_office_address_isObl pf),
    filter_isObl_eq_nil (rule_credit_card_isObl a),
    filter_isObl_eq_nil (rule_eligibility_issues_isObl er),
    filter_isObl_eq_nil (rule_stretched_ratios_isObl er),
    filter_isObl_eq_nil (rule_low_income_isObl er),
    filter_isObl_eq_nil (rule_form_fields_isObl pf),
    filter_isObl_eq_nil (rule_property_isObl pf),
    filter_isObl_eq_nil (rule_reference_isObl pf),
    filter_isObl_eq_nil (rule_banking_isObl a),
    filter_isObl_eq_nil (rule_salary_count_isObl a)]
  have hall : (rule_obligations a).filter (fun q => q.text.isOblLetter) =
      rule_obligations a := by
    refine List.filter_eq_self.mpr fun q hq => ?_
    obtain ⟨emi, -, rfl⟩ := List.mem_map.mp hq
    rfl
  rw [hall]
  simp [rule_obligations]

/-- Every obligation-letter query generated has priority High. -/
theorem raw_isObl_priority (a : AnalysisSummary) (er : EligResult)
    (pd : PendingDocs) (pf : PendingForms) :
    ∀ q ∈ generateQueriesRaw a er pd pf,
      q.text.isOblLetter = true → q.priority = Priority.High := by
  intro q hq hobl
  unfold generateQueriesRaw at hq
  simp only [List.mem_append] at hq
  rcases hq with ((((((((((((h | h) | h) | h) | h) | h) | h) | h) | h) | h) | h) | h) | h)
  · rw [rule_pending_documents_isObl pd q h] at hobl
    exact Bool.noConfusion hobl
  · rw [rule_employment_isObl a q h] at hobl
    exact Bool.noConfusion hobl
  · rw [rule_office_address_isObl pf q h] at hobl
    exact Bool.noConfusion hobl
  · obtain ⟨emi, -, rfl⟩ := List.mem_map.mp h
    rfl
  · rw [rule_credit_card_isObl a q h] at hobl
    exact Bool.noConfusion hobl
  · rw [rule_eligibility_issues_isObl er q h] at hobl
    exact Bool.noConfusion hobl
  · rw [rule_stretched_ratios_isObl er q h] at hobl
    exact Bool.noConfusion hobl
  · rw [rule_low_income_isObl er q h] at hobl
    exact Bool.noConfusion hobl
  · rw [rule_form_fields_isObl pf q h] at hobl
    exact Bool.noConfusion hobl
  · rw [rule_property_isObl pf q h] at hobl
    exact Bool.noConfusion hobl
  · rw [rule_reference_isObl pf q h] at hobl
    exact Bool.noConfusion hobl
  · rw [rule_banking_isObl a q h] at hobl
    exact Bool.noConfusion hobl
  · rw [rule_salary_count_isObl a q h] at hobl
    exact Bool.noConfusion hobl

/-- The stable sort does not disturb the obligation-letter subsequence when
all obligation letters rank 1 (High). -/
theorem sortQueries_filter_isObl (l : List Query)
    (hH : ∀ q ∈ l, q.text.isOblLetter = true → q.priority = Priority.High) :
    (sortQueriesByPriority l).filter (fun q => q.text.isOblLetter) =
      l.filter (fun q => q.text.isOblLetter) := by
  unfold sortQueriesByPriority
  simp only [List.filter_append, List.filter_filter]
  have hnot : ∀ i : ℕ, i ≠ 1 →
      l.filter (fun a => a.text.isOblLetter && decide (priorityRank a.priority = i)) = [] := by
    intro i hi
    rw [List.filter_eq_nil_iff]
    intro a ha
    simp only [Bool.and_eq_true, decide_eq_true_eq, not_and]
    intro h1 h2
    rw [hH a ha h1] at h2
    exact hi (by simpa [priorityRank] using h2.symm)
  have h1eq : l.filter (fun a => a.text.isOblLetter && decide (priorityRank a.priority = 1)) =
      l.filter (fun a => a.text.isOblLetter) := by
    refine List.filter_congr fun a ha => ?_
    by_cases hobl : a.text.isOblLetter = true
    · simp [hobl, hH a ha hobl, priorityRank]
    · simp only [Bool.not_eq_true] at hobl
      simp [hobl]
  rw [hnot 0 (by norm_num), hnot 2 (by norm_num), hnot 3 (by norm_num), h1eq]
  simp

/-- C8 (amended): `generate_queries` carries exactly one High-priority
obligation query per EMI record found, in input order, naming the record's
(title-cased) loan type and lender, regardless of whether a corroborating
loan document exists.  (The claim's skip-when-corroborated clause is refuted
by `C8_counterexample`.) -/
theorem C8_obligation_queries (a : AnalysisSummary) (er : EligResult)
    (pd : PendingDocs) (pf : PendingForms) :
    (generate_queries a er pd pf).filter (fun q => q.text.isOblLetter) =
      a.emis_found.map oblQuery ∧
    ∀ emi : EmiRecord,
      (oblQuery emi).priority = Priority.High ∧
      (oblQuery emi).category = "obligations" ∧
      (oblQuery emi).text = QueryText.loanOutstandingLetter
        (if orUnknown emi.loan_type ≠ "Unknown" then titleCase (orUnknown emi.loan_type)
         else "Unknown")
        (orUnknown emi.lender) (emi.emi_amount.getD 0) := by
  constructor
  · rw [generate_queries, sortQueries_filter_isObl _ (raw_isObl_priority a er pd pf)]
    exact raw_filter_isObl a er pd pf
  · intro emi
    exact ⟨rfl, rfl, rfl⟩

/-- An obligation record whose corroborating loan statement exists. -/
def emiC : EmiRecord :=
  { lender := some "HDFC", emi_amount := some 5000, loan_type := some "home",
    has_loan_document := some true }

/-- An eligibility result triggering no eligibility/ratio/income queries. -/
def erC : EligResult :=
  { eligible := true, issues := [], warnings := [], current_age := 30,
    remaining_service_years := 30, max_tenure_allowed := 30,
    approved_tenure_years := 30, gross_monthly_income := 80500,
    fixed_income := 80000, variable_income_considered := 500,
    total_existing_obligations := 5000, emi_details := [],
    current_foir_percent := 10, max_emi_allowed := 48300,
    max_loan_by_income := 17388000, emi_for_requested_loan := 10,
    foir_with_requested_loan := 11, approved_loan_amount := some 100,
    recommended_loan_amount := none }

/-- An analysis summary whose only query trigger is the corroborated EMI. -/
def aC : AnalysisSummary :=
  { job_since_years := 5, emis_found := [emiC],
    average_bank_balance := some 20000, salary_slips_count := 3 }

/-- C8 counterexample: the obligation record `emiC` carries
`has_loan_document = true`, yet `generate_queries` still emits its
High-priority LOAN OUTSTANDING LETTER query — the corroboration flag is
never consulted (query_generator.py lines 73-87). -/
theorem C8_counterexample :
    ({ category := "obligations",
       text := QueryText.loanOutstandingLetter "Home" "HDFC" 5000,
       priority := Priority.High } : Query) ∈ generate_queries aC erC {} {} ∧
    emiC.has_loan_document = some true := by
  constructor
  · have h1 : (generate_queries aC erC {} {}).filter (fun q => q.text.isOblLetter) =
        [oblQuery emiC] := by
      rw [generate_queries, sortQueries_filter_isObl _ (raw_isObl_priority aC erC {} {}),
        raw_filter_isObl]
      rfl
    have h2 : oblQuery emiC =
        { category := "obligations",
          text := QueryText.loanOutstandingLetter "Home" "HDFC" 5000,
          priority := Priority.High } := by
      decide
    have h3 : oblQuery emiC ∈
        (generate_queries aC erC {} {}).filter (fun q => q.text.isOblLetter) := by
      rw [h1]
      exact List.mem_singleton_self _
    rw [← h2]
    exact List.mem_of_mem_filter h3
  · rfl

end LoanDocs
